import Mathlib

/-!
# Verification of `PG_GAN_417/utils.py`

A shallow embedding of the utility module of the PG_GAN metasurface
repository, together with theorems settling the specification claims
about it.

Modelling conventions:

* Network parameter sets (`state_dict` values) and optimizer states are
  opaque serialized blobs; the code never inspects them, it only stores
  and moves them, so we model them as association lists of named integer
  bit-patterns with decidable equality ("bit-identical" = `=`).
* Loss values are Python floats that the code treats as opaque data
  (they are stored, serialized and returned but never computed with),
  so we model a scalar by its bit pattern, an `Int`.
* The filesystem is modelled explicitly: a set of existing directories
  and a map from file paths to file contents.  `torch.save` /
  `torch.load` store and retrieve the checkpoint record as one value.
* Python dictionary access `d['k']` on a possibly missing key is
  modelled by an `Option` field plus a `KeyError`-style error value.
* In-place mutation (`load_state_dict`) is modelled by explicit state
  passing: `load_checkpoint` returns, besides its result, the final
  parameter blobs of the networks and optimizers it was given.
-/

/-- An opaque serialized parameter blob (the result of `state_dict()`):
a map from parameter names to tensor bit-patterns. -/
abbrev StateDict := List (String × Int)

/-- A loss-history scalar, treated as an opaque bit pattern. -/
abbrev Scalar := Int

/-- The checkpoint record handed to `torch.save` by `save_checkpoint`
and read back by `load_checkpoint`.  Each field models the presence or
absence of the corresponding key in the Python dict; `load_checkpoint`
reads exactly these keys. -/
structure Ckpt where
  iters : Option Int
  gen_loss_history : Option (List Scalar)
  dis_loss_history : Option (List Scalar)
  dis_loss_real_history : Option (List Scalar)
  dis_loss_fake_history : Option (List Scalar)
  gen_state_dict : Option StateDict
  dis_state_dict : Option StateDict
  optim_G_state_dict : Option StateDict
  optim_D_state_dict : Option StateDict
  deriving Repr, DecidableEq

/-- Contents of a file on disk: a `torch.save` artifact, a PNG figure
written by `plt.savefig`, or a MATLAB `.mat` file written by
`scipy.io.savemat` (its `mdict` of named scalar sequences). -/
inductive FileData where
  | torchArtifact (c : Ckpt)
  | png
  | matFile (mdict : List (String × List Scalar))
  deriving Repr, DecidableEq

/-- The filesystem state: existing directories and files. -/
structure FS where
  dirs : List String
  files : List (String × FileData)
  deriving Repr, DecidableEq

namespace FS

/-- `os.path.exists`: true for an existing directory or file. -/
def pathExists (fs : FS) (p : String) : Bool :=
  fs.dirs.contains p || (fs.files.lookup p).isSome

/-- `os.mkdir`: create a directory (callers check existence first). -/
def mkdir (fs : FS) (p : String) : FS :=
  { fs with dirs := p :: fs.dirs }

/-- Write a file, unconditionally overwriting any prior file there. -/
def writeFile (fs : FS) (p : String) (d : FileData) : FS :=
  { fs with files := (p, d) :: fs.files.eraseP (fun q => q.1 == p) }

/-- Read a file's contents, if the file exists. -/
def readFile (fs : FS) (p : String) : Option FileData :=
  fs.files.lookup p

end FS

/-- `os.path.join(a, b)` for a directory name without a trailing
separator. -/
def joinPath (a b : String) : String := a ++ "/" ++ b

/-- Embedding of `save_checkpoint(state, checkpoint)`
(src/PG_GAN_417/utils.py lines 95-109): compute
`filepath = os.path.join(checkpoint, 'model.pth.tar')`, create the
directory when `os.path.exists` is false (otherwise only report), then
`torch.save(state, filepath)`. -/
def save_checkpoint (state : Ckpt) (checkpoint : String) (fs : FS) : FS :=
  let filepath := joinPath checkpoint "model.pth.tar"
  let fs1 := if fs.pathExists checkpoint then fs else fs.mkdir checkpoint
  fs1.writeFile filepath (.torchArtifact state)

/-- The error raised by `load_checkpoint`. -/
inductive LoadError where
  /-- The `raise("File doesn't exist {}")` at utils.py line 122,
  reached when `os.path.exists(checkpoint)` is false: the spec's
  `CheckpointNotFound` kind. -/
  | notFound (path : String)
  /-- The path exists but does not hold a `torch.save` artifact, so
  `torch.load` fails. -/
  | notAnArtifact (path : String)
  /-- A `KeyError` on `checkpoint['k']` for a missing key `k`: the
  spec's `CheckpointCorrupt` kind (artifact missing expected fields). -/
  | missingKey (key : String)
  deriving Repr, DecidableEq

/-- The tuple returned on success by `load_checkpoint` (utils.py line
140): `iters, generator, discriminator, gen_loss_history,
dis_loss_history, dis_loss_real_history, dis_loss_fake_history`. -/
structure LoadResult where
  iters : Int
  generator : StateDict
  discriminator : StateDict
  gen_loss_history : List Scalar
  dis_loss_history : List Scalar
  dis_loss_real_history : List Scalar
  dis_loss_fake_history : List Scalar
  deriving Repr, DecidableEq

deriving instance DecidableEq for Except

/-- The complete effect of a `load_checkpoint` call: its
return-or-raise outcome, plus the final in-place state of the two
network modules and, when an optimizer pair was supplied, of the two
optimizers. -/
structure LoadOutcome where
  result : Except LoadError LoadResult
  gen : StateDict
  dis : StateDict
  optimG : Option StateDict
  optimD : Option StateDict
  deriving Repr, DecidableEq

/-- Dict access `c['k']`: the value, or a `KeyError`. -/
def getKey {α : Type} (field : Option α) (key : String) : Except LoadError α :=
  match field with
  | some v => .ok v
  | none => .error (.missingKey key)

/-- Embedding of `load_checkpoint(checkpoint, model, optimizer=None)`
(src/PG_GAN_417/utils.py lines 113-140), with the in-place mutations of
the model and optimizer state dicts made explicit.  `model` is the
`(generator, discriminator)` pair of current parameter blobs;
`optimizer`, when supplied, is the `(optim_G, optim_D)` pair of current
optimizer-state blobs.  The steps follow the source order: existence
check and raise; `torch.load`; read `iters`; read the four loss
histories; `load_state_dict` into generator then discriminator; if an
optimizer pair was given, read and load the two optimizer states. -/
def load_checkpoint (fs : FS) (checkpoint : String)
    (model : StateDict × StateDict)
    (optimizer : Option (StateDict × StateDict)) : LoadOutcome :=
  let (generator, discriminator) := model
  let optimG0 := optimizer.map (·.1)
  let optimD0 := optimizer.map (·.2)
  let fail := fun (e : LoadError) (g d : StateDict)
      (oG oD : Option StateDict) =>
    LoadOutcome.mk (.error e) g d oG oD
  if ¬ fs.pathExists checkpoint then
    fail (.notFound checkpoint) generator discriminator optimG0 optimD0
  else
    match fs.readFile checkpoint with
    | some (.torchArtifact c) =>
      match getKey c.iters "iters" with
      | .error e => fail e generator discriminator optimG0 optimD0
      | .ok iters =>
      match getKey c.gen_loss_history "gen_loss_history" with
      | .error e => fail e generator discriminator optimG0 optimD0
      | .ok gen_loss_history =>
      match getKey c.dis_loss_history "dis_loss_history" with
      | .error e => fail e generator discriminator optimG0 optimD0
      | .ok dis_loss_history =>
      match getKey c.dis_loss_real_history "dis_loss_real_history" with
      | .error e => fail e generator discriminator optimG0 optimD0
      | .ok dis_loss_real_history =>
      match getKey c.dis_loss_fake_history "dis_loss_fake_history" with
      | .error e => fail e generator discriminator optimG0 optimD0
      | .ok dis_loss_fake_history =>
      match getKey c.gen_state_dict "gen_state_dict" with
      | .error e => fail e generator discriminator optimG0 optimD0
      | .ok genSD =>
      match getKey c.dis_state_dict "dis_state_dict" with
      | .error e => fail e genSD discriminator optimG0 optimD0
      | .ok disSD =>
      match optimizer with
      | none =>
        LoadOutcome.mk
          (.ok (LoadResult.mk iters genSD disSD gen_loss_history
            dis_loss_history dis_loss_real_history dis_loss_fake_history))
          genSD disSD none none
      | some _ =>
        match getKey c.optim_G_state_dict "optim_G_state_dict" with
        | .error e => fail e genSD disSD optimG0 optimD0
        | .ok oG =>
        match getKey c.optim_D_state_dict "optim_D_state_dict" with
        | .error e => fail e genSD disSD (some oG) optimD0
        | .ok oD =>
        LoadOutcome.mk
          (.ok (LoadResult.mk iters genSD disSD gen_loss_history
            dis_loss_history dis_loss_real_history dis_loss_fake_history))
          genSD disSD (some oG) (some oD)
    | _ =>
      fail (.notAnArtifact checkpoint) generator discriminator optimG0 optimD0

/-- The argument of `plot_loss_history`: a tuple of two or three loss
histories (the source destructures by `len(loss_history)`). -/
inductive LossHistoryArg where
  | two (gen_loss_history dis_loss_history : List Scalar)
  | three (gen_loss_history dis_loss_history Eff_history : List Scalar)
  deriving Repr, DecidableEq

/-- Embedding of `plot_loss_history(loss_history, output_dir)`
(src/PG_GAN_417/utils.py lines 143-164).  With two histories, when both
are non-empty (Python list truthiness), it saves a figure to
`output_dir + '/figures/history.png'` and then `io.savemat` to
`os.path.join(output_dir, 'history.mat')`.  With three histories it
additionally saves a second figure to
`output_dir + '/figures/Eff_history.png'` and puts `Eff_history` into
the `.mat` dictionary as well. -/
def plot_loss_history (loss_history : LossHistoryArg) (output_dir : String)
    (fs : FS) : FS :=
  match loss_history with
  | .two gen_loss_history dis_loss_history =>
    if ¬ gen_loss_history.isEmpty ∧ ¬ dis_loss_history.isEmpty then
      let fs1 := fs.writeFile (output_dir ++ "/figures/history.png") .png
      let history_path := joinPath output_dir "history.mat"
      fs1.writeFile history_path (.matFile
        [("gen_loss_history", gen_loss_history),
         ("dis_loss_history", dis_loss_history)])
    else fs
  | .three gen_loss_history dis_loss_history eff_history =>
    if ¬ gen_loss_history.isEmpty ∧ ¬ dis_loss_history.isEmpty then
      let fs1 := fs.writeFile (output_dir ++ "/figures/history.png") .png
      let fs2 := fs1.writeFile (output_dir ++ "/figures/Eff_history.png") .png
      let history_path := joinPath output_dir "history.mat"
      fs2.writeFile history_path (.matFile
        [("gen_loss_history", gen_loss_history),
         ("dis_loss_history", dis_loss_history),
         ("Eff_history", eff_history)])
    else fs

/-- Embedding of `row_csv2dict(csv_file)` (src/PG_GAN_417/utils.py
lines 86-92) on a CSV file whose rows each have exactly three fields
(the shape the function indexes: `row[0]`, `row[1]`, `row[2]`): each
row in file order executes `dict_club[(row[0],row[1])] = row[2]`, a
Python dict assignment, modelled as pointwise map update. -/
def row_csv2dict (rows : List (String × String × String)) :
    (String × String) → Option String :=
  rows.foldl
    (fun dict_club row q =>
      if q = (row.1, row.2.1) then some row.2.2 else dict_club q)
    (fun _ => none)

/-- A handler attached to the root logger. -/
inductive Handler where
  | fileHandler (path : String) (fmt : String)
  | streamHandler (fmt : String)
  deriving Repr, DecidableEq

/-- The process-wide root-logger state: its level and handler list. -/
structure Logger where
  level : Nat
  handlers : List Handler
  deriving Repr, DecidableEq

/-- The root logger at process start: level `logging.WARNING` (30) and
no handlers. -/
def initialRootLogger : Logger := { level := 30, handlers := [] }

/-- Number of file handlers attached. -/
def countFileHandlers (hs : List Handler) : Nat :=
  hs.countP (fun h => match h with | .fileHandler _ _ => true | _ => false)

/-- Number of console (stream) handlers attached. -/
def countStreamHandlers (hs : List Handler) : Nat :=
  hs.countP (fun h => match h with | .streamHandler _ => true | _ => false)

/-- Embedding of `set_logger(log_path)` (src/PG_GAN_417/utils.py lines
44-70) acting on the root-logger state: set the level to
`logging.INFO` (20); if the handler list is empty, append a
`FileHandler` on `log_path` and a `StreamHandler`, each with its
formatter; otherwise add nothing. -/
def set_logger (log_path : String) (logger : Logger) : Logger :=
  let logger1 := { logger with level := 20 }
  if logger1.handlers.isEmpty then
    { logger1 with handlers := logger1.handlers ++
        [.fileHandler log_path "%(asctime)s:%(levelname)s: %(message)s",
         .streamHandler "%(message)s"] }
  else logger1

/-- A JSON scalar value stored in a `Params` instance. -/
inductive JValue where
  | str (s : String)
  | num (n : Int)
  | boolean (b : Bool)
  | null
  deriving Repr, DecidableEq

/-- The `__dict__` of a `Params` instance: its attribute map. -/
abbrev Attrs := String → Option JValue

/-- A parsed JSON object as returned by `json.load`: an ordered list
of key-value bindings with pairwise-distinct keys. -/
abbrev JsonObject := List (String × JValue)

/-- Lookup of a key in a parsed JSON object. -/
def jsonLookup (file : JsonObject) (k : String) : Option JValue :=
  match file with
  | [] => none
  | kv :: rest => if k = kv.1 then some kv.2 else jsonLookup rest k

/-- Embedding of `Params.update(json_path)` (src/PG_GAN_417/utils.py
lines 32-36): `json.load` the file into `params` and execute
`self.__dict__.update(params)`, which assigns each binding of `params`
into the attribute map in order. -/
def Params.update (self : Attrs) (file : JsonObject) : Attrs :=
  file.foldl (fun d kv q => if q = kv.1 then some kv.2 else d q) self

/-- Embedding of `Params.__init__(json_path)` (src/PG_GAN_417/utils.py
lines 24-25): a fresh instance has an empty `__dict__` and calls
`self.update(json_path)`. -/
def Params.init (file : JsonObject) : Attrs :=
  Params.update (fun _ => none) file

/-! ## Helper lemmas about the filesystem model -/

theorem lookup_eraseP_ne {files : List (String × FileData)} {p q : String}
    (h : q ≠ p) :
    (files.eraseP (fun kv => kv.1 == p)).lookup q = files.lookup q := by
  induction files with
  | nil => rfl
  | cons kv rest ih =>
    by_cases hk : kv.1 = p
    · have hqk : (q == kv.1) = false :=
        beq_eq_false_iff_ne.mpr (fun he => h (he.trans hk))
      have hpred : (kv.1 == p) = true := beq_iff_eq.mpr hk
      simp [List.eraseP_cons, hpred, List.lookup, hqk]
    · have hpred : (kv.1 == p) = false := beq_eq_false_iff_ne.mpr hk
      cases hqe : q == kv.1 <;>
        simp [List.eraseP_cons, hpred, List.lookup, hqe, ih]

theorem FS.readFile_writeFile_self (fs : FS) (p : String) (d : FileData) :
    (fs.writeFile p d).readFile p = some d := by
  simp [FS.writeFile, FS.readFile, List.lookup]

theorem FS.readFile_writeFile_ne (fs : FS) {p q : String} (d : FileData)
    (h : q ≠ p) :
    (fs.writeFile p d).readFile q = fs.readFile q := by
  have hb : (q == p) = false := beq_eq_false_iff_ne.mpr h
  simp [FS.writeFile, FS.readFile, List.lookup, hb, lookup_eraseP_ne h]

theorem FS.pathExists_of_readFile {fs : FS} {p : String} {d : FileData}
    (h : fs.readFile p = some d) : fs.pathExists p = true := by
  unfold FS.readFile at h
  unfold FS.pathExists
  rw [h]
  simp

theorem FS.pathExists_writeFile (fs : FS) (p : String) (d : FileData)
    (q : String) (h : fs.pathExists q = true) :
    (fs.writeFile p d).pathExists q = true := by
  by_cases hq : q = p
  · subst hq
    exact FS.pathExists_of_readFile (FS.readFile_writeFile_self fs q d)
  · simp [FS.pathExists, FS.writeFile] at *
    rcases h with h | h
    · exact Or.inl h
    · right
      have := @lookup_eraseP_ne fs.files p q hq
      simp [List.lookup, hq, this]
      exact h

theorem FS.pathExists_mkdir_self (fs : FS) (p : String) :
    (fs.mkdir p).pathExists p = true := by
  simp [FS.mkdir, FS.pathExists]

/-- After any `save_checkpoint` into `dir`, the path `dir` exists. -/
theorem save_checkpoint_dir_exists (st : Ckpt) (dir : String) (fs : FS) :
    (save_checkpoint st dir fs).pathExists dir = true := by
  unfold save_checkpoint
  by_cases h : fs.pathExists dir = true
  · simp [h]
    exact FS.pathExists_writeFile _ _ _ _ h
  · simp [h]
    exact FS.pathExists_writeFile _ _ _ _ (FS.pathExists_mkdir_self fs dir)

/-- `save_checkpoint` leaves the artifact at
`os.path.join(dir, 'model.pth.tar')`. -/
theorem save_checkpoint_readFile (st : Ckpt) (dir : String) (fs : FS) :
    (save_checkpoint st dir fs).readFile (joinPath dir "model.pth.tar") =
      some (.torchArtifact st) := by
  unfold save_checkpoint
  by_cases h : fs.pathExists dir = true <;>
    simp [h, FS.readFile_writeFile_self]

/-! ## Claim theorems -/

/-- On an artifact holding all seven fields that a `load_checkpoint`
call without an optimizer pair reads, the call returns them and mutates
the two networks to the stored parameter blobs. -/
theorem load_checkpoint_ok_noOpt (fs : FS) (path : String)
    (g0 d0 : StateDict) (c : Ckpt) (n : Int) (gl dl rl fl : List Scalar)
    (gsd dsd : StateDict)
    (hread : fs.readFile path = some (.torchArtifact c))
    (hi : c.iters = some n)
    (hgl : c.gen_loss_history = some gl)
    (hdl : c.dis_loss_history = some dl)
    (hrl : c.dis_loss_real_history = some rl)
    (hfl : c.dis_loss_fake_history = some fl)
    (hgsd : c.gen_state_dict = some gsd)
    (hdsd : c.dis_state_dict = some dsd) :
    load_checkpoint fs path (g0, d0) none =
      { result := .ok (LoadResult.mk n gsd dsd gl dl rl fl),
        gen := gsd, dis := dsd, optimG := none, optimD := none } := by
  have hpe := FS.pathExists_of_readFile hread
  simp [load_checkpoint, hpe, hread, getKey, hi, hgl, hdl, hrl, hfl, hgsd,
    hdsd]

/-- On an artifact holding all nine fields that a `load_checkpoint`
call with an optimizer pair reads, the call returns the seven
non-optimizer fields and mutates networks and optimizers to the stored
blobs. -/
theorem load_checkpoint_ok_opt (fs : FS) (path : String)
    (g0 d0 oG0 oD0 : StateDict) (c : Ckpt) (n : Int)
    (gl dl rl fl : List Scalar) (gsd dsd oG oD : StateDict)
    (hread : fs.readFile path = some (.torchArtifact c))
    (hi : c.iters = some n)
    (hgl : c.gen_loss_history = some gl)
    (hdl : c.dis_loss_history = some dl)
    (hrl : c.dis_loss_real_history = some rl)
    (hfl : c.dis_loss_fake_history = some fl)
    (hgsd : c.gen_state_dict = some gsd)
    (hdsd : c.dis_state_dict = some dsd)
    (hoG : c.optim_G_state_dict = some oG)
    (hoD : c.optim_D_state_dict = some oD) :
    load_checkpoint fs path (g0, d0) (some (oG0, oD0)) =
      { result := .ok (LoadResult.mk n gsd dsd gl dl rl fl),
        gen := gsd, dis := dsd, optimG := some oG, optimD := some oD } := by
  have hpe := FS.pathExists_of_readFile hread
  simp [load_checkpoint, hpe, hread, getKey, hi, hgl, hdl, hrl, hfl, hgsd,
    hdsd, hoG, hoD]

/-- C2: for every state and every directory, calling `save_checkpoint`
twice with the same directory never fails because the directory already
exists: the first call creates the directory if absent (afterwards the
directory path exists), the second call succeeds, and the artifact at
the fixed filename `model.pth.tar` under that directory afterwards is
the one written by the second call, overwriting the first. -/
theorem save_checkpoint_twice (st1 st2 : Ckpt) (dir : String) (fs : FS) :
    (save_checkpoint st1 dir fs).pathExists dir = true ∧
    (save_checkpoint st2 dir (save_checkpoint st1 dir fs)).readFile
      (joinPath dir "model.pth.tar") = some (.torchArtifact st2) :=
  ⟨save_checkpoint_dir_exists st1 dir fs,
   save_checkpoint_readFile st2 dir (save_checkpoint st1 dir fs)⟩

/-- C3: `load_checkpoint` on a path that does not exist raises the
not-found error (the spec's CheckpointNotFound kind) and performs no
mutation: the outcome carries the generator, discriminator and
optimizer states exactly as supplied. -/
theorem load_checkpoint_notFound (fs : FS) (path : String)
    (g0 d0 : StateDict) (opt : Option (StateDict × StateDict))
    (h : fs.pathExists path = false) :
    load_checkpoint fs path (g0, d0) opt =
      { result := .error (.notFound path), gen := g0, dis := d0,
        optimG := opt.map Prod.fst, optimD := opt.map Prod.snd } := by
  simp [load_checkpoint, h]

/-- Witness for C3 at a concrete input: the empty filesystem and the
path "missing". -/
theorem load_checkpoint_notFound_witness :
    (FS.mk [] []).pathExists "missing" = false ∧
    load_checkpoint (FS.mk [] []) "missing"
        ([("w", 1)], [("w", 2)]) none =
      { result := .error (.notFound "missing"),
        gen := [("w", 1)], dis := [("w", 2)],
        optimG := none, optimD := none } :=
  ⟨rfl, load_checkpoint_notFound (FS.mk [] []) "missing"
    [("w", 1)] [("w", 2)] none rfl⟩

/-- C1 counterexample: the claim fails as stated.  The state S below is
valid in the claim's sense — iteration count 5 ≥ 0, generator and
discriminator parameter sets, equal-length generator and discriminator
loss histories, no optimizer pair — yet `load_checkpoint` on the
artifact produced by `save_checkpoint` raises a `KeyError` on the field
`dis_loss_real_history` (utils.py line 129), which the claimed state
shape does not include, instead of returning S's iteration count and
histories. -/
theorem roundtrip_fails_without_real_fake_histories :
    (5 : Int) ≥ 0 ∧
    ([10, 20] : List Scalar).length = ([30, 40] : List Scalar).length ∧
    (load_checkpoint
        (save_checkpoint
          (Ckpt.mk (some 5) (some [10, 20]) (some [30, 40]) none none
            (some [("w", 7)]) (some [("w", 8)]) none none)
          "ckpt" (FS.mk [] []))
        (joinPath "ckpt" "model.pth.tar") ([("w", 0)], [("w", 0)]) none).result
      = .error (.missingKey "dis_loss_real_history") := by
  refine ⟨by decide, rfl, ?_⟩
  rfl

/-- C1 (amended): the round trip holds once the saved state also
carries the discriminator-real and discriminator-fake loss histories,
the two fields `load_checkpoint` reads beyond the claimed state shape.
For such a state S, loading the artifact written by
`save_checkpoint S dir` restores generator and discriminator parameters
bit-identical (equal) to S's, returns S's iteration count, and returns
loss histories element-wise equal (equal as lists) to S's. -/
theorem save_load_roundtrip (S : Ckpt) (dir : String) (fs : FS)
    (g0 d0 : StateDict) (n : Int) (gl dl rl fl : List Scalar)
    (gsd dsd : StateDict)
    (hn : 0 ≤ n) (hlen : gl.length = dl.length)
    (hi : S.iters = some n)
    (hgl : S.gen_loss_history = some gl)
    (hdl : S.dis_loss_history = some dl)
    (hrl : S.dis_loss_real_history = some rl)
    (hfl : S.dis_loss_fake_history = some fl)
    (hgsd : S.gen_state_dict = some gsd)
    (hdsd : S.dis_state_dict = some dsd) :
    load_checkpoint (save_checkpoint S dir fs)
        (joinPath dir "model.pth.tar") (g0, d0) none =
      { result := .ok (LoadResult.mk n gsd dsd gl dl rl fl),
        gen := gsd, dis := dsd, optimG := none, optimD := none } :=
  load_checkpoint_ok_noOpt _ _ _ _ _ _ _ _ _ _ _ _
    (save_checkpoint_readFile S dir fs) hi hgl hdl hrl hfl hgsd hdsd

/-- Witness for the amended C1 at a concrete valid state. -/
theorem save_load_roundtrip_witness :
    (0 : Int) ≤ 5 ∧ ([10, 20] : List Scalar).length = [30, 40].length ∧
    load_checkpoint
        (save_checkpoint
          (Ckpt.mk (some 5) (some [10, 20]) (some [30, 40]) (some [1])
            (some [2]) (some [("w", 7)]) (some [("w", 8)]) none none)
          "ckpt" (FS.mk [] []))
        (joinPath "ckpt" "model.pth.tar") ([("w", 0)], [("w", 0)]) none =
      { result := .ok
          (LoadResult.mk 5 [("w", 7)] [("w", 8)] [10, 20] [30, 40] [1] [2]),
        gen := [("w", 7)], dis := [("w", 8)],
        optimG := none, optimD := none } :=
  ⟨by decide, rfl,
   save_load_roundtrip
    (Ckpt.mk (some 5) (some [10, 20]) (some [30, 40]) (some [1])
      (some [2]) (some [("w", 7)]) (some [("w", 8)]) none none)
    "ckpt" (FS.mk [] []) [("w", 0)] [("w", 0)] 5 [10, 20] [30, 40] [1] [2]
    [("w", 7)] [("w", 8)] (by decide) rfl rfl rfl rfl rfl rfl rfl rfl⟩

/-- C5: on an artifact containing all the fields that a
`load_checkpoint` call without an optimizer pair reads, the call
returns the restored iteration count, the now-mutated generator and
discriminator (set to the stored parameter blobs), and the four
historical sequences — generator loss, discriminator loss,
discriminator-real loss, discriminator-fake loss — each equal to the
corresponding field of the artifact. -/
theorem load_checkpoint_returns_artifact_fields (fs : FS) (path : String)
    (g0 d0 : StateDict) (c : Ckpt) (n : Int) (gl dl rl fl : List Scalar)
    (gsd dsd : StateDict)
    (hread : fs.readFile path = some (.torchArtifact c))
    (hi : c.iters = some n)
    (hgl : c.gen_loss_history = some gl)
    (hdl : c.dis_loss_history = some dl)
    (hrl : c.dis_loss_real_history = some rl)
    (hfl : c.dis_loss_fake_history = some fl)
    (hgsd : c.gen_state_dict = some gsd)
    (hdsd : c.dis_state_dict = some dsd) :
    load_checkpoint fs path (g0, d0) none =
      { result := .ok (LoadResult.mk n gsd dsd gl dl rl fl),
        gen := gsd, dis := dsd, optimG := none, optimD := none } :=
  load_checkpoint_ok_noOpt fs path g0 d0 c n gl dl rl fl gsd dsd
    hread hi hgl hdl hrl hfl hgsd hdsd

/-- Witness for C5 at a concrete artifact. -/
theorem load_checkpoint_returns_artifact_fields_witness :
    (FS.mk ["d"] [("d/model.pth.tar", .torchArtifact
        (Ckpt.mk (some 9) (some [5]) (some [6]) (some [7]) (some [8])
          (some [("a", 1)]) (some [("b", 2)]) none none))]).readFile
        "d/model.pth.tar" = some (.torchArtifact
        (Ckpt.mk (some 9) (some [5]) (some [6]) (some [7]) (some [8])
          (some [("a", 1)]) (some [("b", 2)]) none none)) ∧
    load_checkpoint
        (FS.mk ["d"] [("d/model.pth.tar", .torchArtifact
          (Ckpt.mk (some 9) (some [5]) (some [6]) (some [7]) (some [8])
            (some [("a", 1)]) (some [("b", 2)]) none none))])
        "d/model.pth.tar" ([], []) none =
      { result := .ok
          (LoadResult.mk 9 [("a", 1)] [("b", 2)] [5] [6] [7] [8]),
        gen := [("a", 1)], dis := [("b", 2)],
        optimG := none, optimD := none } :=
  ⟨rfl,
   load_checkpoint_returns_artifact_fields
    (FS.mk ["d"] [("d/model.pth.tar", .torchArtifact
      (Ckpt.mk (some 9) (some [5]) (some [6]) (some [7]) (some [8])
        (some [("a", 1)]) (some [("b", 2)]) none none))])
    "d/model.pth.tar" [] []
    (Ckpt.mk (some 9) (some [5]) (some [6]) (some [7]) (some [8])
      (some [("a", 1)]) (some [("b", 2)]) none none)
    9 [5] [6] [7] [8] [("a", 1)] [("b", 2)]
    rfl rfl rfl rfl rfl rfl rfl rfl⟩

/-- C4: on an artifact saved without optimizer state (both optimizer
fields absent, the other seven fields present), a `load_checkpoint`
call that supplies an optimizer pair fails with a `KeyError` on
`optim_G_state_dict` — the spec's CheckpointCorrupt kind — rather than
returning successfully; the supplied optimizer states are untouched. -/
theorem load_checkpoint_optimizer_absent_fails (fs : FS) (path : String)
    (g0 d0 oG0 oD0 : StateDict) (c : Ckpt) (n : Int)
    (gl dl rl fl : List Scalar) (gsd dsd : StateDict)
    (hread : fs.readFile path = some (.torchArtifact c))
    (hi : c.iters = some n)
    (hgl : c.gen_loss_history = some gl)
    (hdl : c.dis_loss_history = some dl)
    (hrl : c.dis_loss_real_history = some rl)
    (hfl : c.dis_loss_fake_history = some fl)
    (hgsd : c.gen_state_dict = some gsd)
    (hdsd : c.dis_state_dict = some dsd)
    (hoG : c.optim_G_state_dict = none)
    (hoD : c.optim_D_state_dict = none) :
    (load_checkpoint fs path (g0, d0) (some (oG0, oD0))).result =
      .error (.missingKey "optim_G_state_dict") ∧
    (load_checkpoint fs path (g0, d0) (some (oG0, oD0))).optimG = some oG0 ∧
    (load_checkpoint fs path (g0, d0) (some (oG0, oD0))).optimD = some oD0 := by
  have hpe := FS.pathExists_of_readFile hread
  refine ⟨?_, ?_, ?_⟩ <;>
    simp [load_checkpoint, hpe, hread, getKey, hi, hgl, hdl, hrl, hfl,
      hgsd, hdsd, hoG]

/-- Witness for C4 at a concrete artifact without optimizer state. -/
theorem load_checkpoint_optimizer_absent_fails_witness :
    (FS.mk ["d"] [("d/model.pth.tar", .torchArtifact
        (Ckpt.mk (some 9) (some [5]) (some [6]) (some [7]) (some [8])
          (some [("a", 1)]) (some [("b", 2)]) none none))]).readFile
        "d/model.pth.tar" = some (.torchArtifact
        (Ckpt.mk (some 9) (some [5]) (some [6]) (some [7]) (some [8])
          (some [("a", 1)]) (some [("b", 2)]) none none)) ∧
    (load_checkpoint
        (FS.mk ["d"] [("d/model.pth.tar", .torchArtifact
          (Ckpt.mk (some 9) (some [5]) (some [6]) (some [7]) (some [8])
            (some [("a", 1)]) (some [("b", 2)]) none none))])
        "d/model.pth.tar" ([], []) (some ([("g", 3)], [("h", 4)]))).result =
      .error (.missingKey "optim_G_state_dict") :=
  ⟨rfl,
   (load_checkpoint_optimizer_absent_fails
    (FS.mk ["d"] [("d/model.pth.tar", .torchArtifact
      (Ckpt.mk (some 9) (some [5]) (some [6]) (some [7]) (some [8])
        (some [("a", 1)]) (some [("b", 2)]) none none))])
    "d/model.pth.tar" [] [] [("g", 3)] [("h", 4)]
    (Ckpt.mk (some 9) (some [5]) (some [6]) (some [7]) (some [8])
      (some [("a", 1)]) (some [("b", 2)]) none none)
    9 [5] [6] [7] [8] [("a", 1)] [("b", 2)]
    rfl rfl rfl rfl rfl rfl rfl rfl rfl rfl).1⟩

/-- C9: the load is not atomic with respect to the networks.  On an
artifact that contains the network state fields (and the scalar fields
read before them) but lacks the optimizer state fields, a
`load_checkpoint` call with an optimizer pair fails, but only after the
generator and discriminator have already been overwritten in place with
the artifact's parameter blobs: on this error the supplied networks are
left mutated (equal to the artifact's blobs, hence different from their
original parameters whenever those differ). -/
theorem load_checkpoint_mutates_despite_optimizer_failure (fs : FS)
    (path : String) (g0 d0 oG0 oD0 : StateDict) (c : Ckpt) (n : Int)
    (gl dl rl fl : List Scalar) (gsd dsd : StateDict)
    (hread : fs.readFile path = some (.torchArtifact c))
    (hi : c.iters = some n)
    (hgl : c.gen_loss_history = some gl)
    (hdl : c.dis_loss_history = some dl)
    (hrl : c.dis_loss_real_history = some rl)
    (hfl : c.dis_loss_fake_history = some fl)
    (hgsd : c.gen_state_dict = some gsd)
    (hdsd : c.dis_state_dict = some dsd)
    (hoG : c.optim_G_state_dict = none)
    (hgne : gsd ≠ g0) (hdne : dsd ≠ d0) :
    (∃ e, (load_checkpoint fs path (g0, d0) (some (oG0, oD0))).result =
      .error e) ∧
    (load_checkpoint fs path (g0, d0) (some (oG0, oD0))).gen = gsd ∧
    (load_checkpoint fs path (g0, d0) (some (oG0, oD0))).dis = dsd ∧
    (load_checkpoint fs path (g0, d0) (some (oG0, oD0))).gen ≠ g0 ∧
    (load_checkpoint fs path (g0, d0) (some (oG0, oD0))).dis ≠ d0 := by
  have hpe := FS.pathExists_of_readFile hread
  refine ⟨⟨.missingKey "optim_G_state_dict", ?_⟩, ?_, ?_, ?_, ?_⟩ <;>
    simp [load_checkpoint, hpe, hread, getKey, hi, hgl, hdl, hrl, hfl,
      hgsd, hdsd, hoG, hgne, hdne]

/-- Witness for C9 at a concrete artifact: the networks start at
parameters different from the stored ones and end up overwritten. -/
theorem load_checkpoint_mutates_despite_optimizer_failure_witness :
    (load_checkpoint
        (FS.mk ["d"] [("d/model.pth.tar", .torchArtifact
          (Ckpt.mk (some 9) (some [5]) (some [6]) (some [7]) (some [8])
            (some [("a", 1)]) (some [("b", 2)]) none none))])
        "d/model.pth.tar" ([("a", 0)], [("b", 0)])
        (some ([("g", 3)], [("h", 4)]))).gen = [("a", 1)] ∧
    (load_checkpoint
        (FS.mk ["d"] [("d/model.pth.tar", .torchArtifact
          (Ckpt.mk (some 9) (some [5]) (some [6]) (some [7]) (some [8])
            (some [("a", 1)]) (some [("b", 2)]) none none))])
        "d/model.pth.tar" ([("a", 0)], [("b", 0)])
        (some ([("g", 3)], [("h", 4)]))).gen ≠ [("a", 0)] :=
  ⟨(load_checkpoint_mutates_despite_optimizer_failure
    (FS.mk ["d"] [("d/model.pth.tar", .torchArtifact
      (Ckpt.mk (some 9) (some [5]) (some [6]) (some [7]) (some [8])
        (some [("a", 1)]) (some [("b", 2)]) none none))])
    "d/model.pth.tar" [("a", 0)] [("b", 0)] [("g", 3)] [("h", 4)]
    (Ckpt.mk (some 9) (some [5]) (some [6]) (some [7]) (some [8])
      (some [("a", 1)]) (some [("b", 2)]) none none)
    9 [5] [6] [7] [8] [("a", 1)] [("b", 2)]
    rfl rfl rfl rfl rfl rfl rfl rfl rfl (by decide) (by decide)).2.1,
   (load_checkpoint_mutates_despite_optimizer_failure
    (FS.mk ["d"] [("d/model.pth.tar", .torchArtifact
      (Ckpt.mk (some 9) (some [5]) (some [6]) (some [7]) (some [8])
        (some [("a", 1)]) (some [("b", 2)]) none none))])
    "d/model.pth.tar" [("a", 0)] [("b", 0)] [("g", 3)] [("h", 4)]
    (Ckpt.mk (some 9) (some [5]) (some [6]) (some [7]) (some [8])
      (some [("a", 1)]) (some [("b", 2)]) none none)
    9 [5] [6] [7] [8] [("a", 1)] [("b", 2)]
    rfl rfl rfl rfl rfl rfl rfl rfl rfl (by decide) (by decide)).2.2.2.1⟩

/-- Appending distinct suffixes to the same string gives distinct
strings. -/
theorem append_ne_of_suffix_ne (a : String) {s t : String} (h : s ≠ t) :
    a ++ s ≠ a ++ t := by
  intro he
  apply h
  have hd := congrArg String.data he
  rw [String.data_append, String.data_append] at hd
  exact String.ext (List.append_cancel_left hd)

/-- C6 counterexample: the claim fails as stated.  For the non-empty
pair of loss histories `([1], [2])` and the output directory "out",
`plot_loss_history` writes `history.mat` directly at
`out/history.mat`, not under the `/figures/` subpath: there is no file
at `out/figures/history.mat`. -/
theorem plot_loss_history_mat_not_under_figures :
    (plot_loss_history (.two [1] [2]) "out" (FS.mk [] [])).readFile
        "out/history.mat" =
      some (.matFile [("gen_loss_history", [1]),
        ("dis_loss_history", [2])]) ∧
    (plot_loss_history (.two [1] [2]) "out" (FS.mk [] [])).readFile
        "out/figures/history.mat" = none :=
  ⟨rfl, rfl⟩

/-- C6 (amended): for every non-empty pair (or triple) of loss
histories and every output directory, `plot_loss_history` writes the
PNG plotting output (and, in the triple case, a second PNG) under the
fixed `/figures/` subpath of the caller-specified output directory,
and writes the MATLAB-compatible data file `history.mat`, containing
the loss-history sequences, directly in the output directory (not
under the `/figures/` subpath). -/
theorem plot_loss_history_artifacts (g d e : List Scalar) (dir : String)
    (fs : FS) (hg : g ≠ []) (hd : d ≠ []) :
    ((plot_loss_history (.two g d) dir fs).readFile
        (dir ++ "/figures/history.png") = some .png ∧
     (plot_loss_history (.two g d) dir fs).readFile
        (joinPath dir "history.mat") =
      some (.matFile [("gen_loss_history", g),
        ("dis_loss_history", d)])) ∧
    ((plot_loss_history (.three g d e) dir fs).readFile
        (dir ++ "/figures/history.png") = some .png ∧
     (plot_loss_history (.three g d e) dir fs).readFile
        (dir ++ "/figures/Eff_history.png") = some .png ∧
     (plot_loss_history (.three g d e) dir fs).readFile
        (joinPath dir "history.mat") =
      some (.matFile [("gen_loss_history", g), ("dis_loss_history", d),
        ("Eff_history", e)])) := by
  have hgi : g.isEmpty = false := by simp [hg]
  have hdi : d.isEmpty = false := by simp [hd]
  have hpm : dir ++ "/figures/history.png" ≠ joinPath dir "history.mat" := by
    unfold joinPath
    rw [String.append_assoc]
    exact append_ne_of_suffix_ne dir (by decide)
  have hem : dir ++ "/figures/Eff_history.png" ≠
      joinPath dir "history.mat" := by
    unfold joinPath
    rw [String.append_assoc]
    exact append_ne_of_suffix_ne dir (by decide)
  have hpe : dir ++ "/figures/history.png" ≠
      dir ++ "/figures/Eff_history.png" :=
    append_ne_of_suffix_ne dir (by decide)
  refine ⟨⟨?_, ?_⟩, ?_, ?_, ?_⟩ <;>
    simp only [plot_loss_history, hgi, hdi, Bool.false_eq_true,
      not_false_iff, and_self, if_true, ite_true, if_pos]
  · rw [FS.readFile_writeFile_ne _ _ hpm, FS.readFile_writeFile_self]
  · rw [FS.readFile_writeFile_self]
  · rw [FS.readFile_writeFile_ne _ _ hpm, FS.readFile_writeFile_ne _ _ hpe,
      FS.readFile_writeFile_self]
  · rw [FS.readFile_writeFile_ne _ _ hem, FS.readFile_writeFile_self]
  · rw [FS.readFile_writeFile_self]

/-- Witness for the amended C6 at concrete histories and directory. -/
theorem plot_loss_history_artifacts_witness :
    ([1] : List Scalar) ≠ [] ∧ ([2] : List Scalar) ≠ [] ∧
    (plot_loss_history (.two [1] [2]) "out" (FS.mk [] [])).readFile
        (joinPath "out" "history.mat") =
      some (.matFile [("gen_loss_history", [1]),
        ("dis_loss_history", [2])]) :=
  ⟨by decide, by decide,
   (plot_loss_history_artifacts [1] [2] [3] "out" (FS.mk [] [])
     (by decide) (by decide)).1.2⟩

/-- Appending one row to the CSV file updates the mapping at that
row's key pair and leaves every other key to the earlier rows. -/
theorem row_csv2dict_concat (rows : List (String × String × String))
    (r : String × String × String) (q : String × String) :
    row_csv2dict (rows ++ [r]) q =
      if q = (r.1, r.2.1) then some r.2.2 else row_csv2dict rows q := by
  unfold row_csv2dict
  rw [List.foldl_append]
  rfl

/-- C7 counterexample: the claim fails as stated.  In the three-field
CSV file with rows `(a, b, 1)` and `(a, b, 2)`, the row `(a, b, 1)` is
a row of the file, yet the mapping returned by `row_csv2dict` sends
`(a, b)` to "2", the later row's value, not to "1". -/
theorem row_csv2dict_duplicate_key_counterexample :
    ("a", "b", "1") ∈ [("a", "b", "1"), ("a", "b", "2")] ∧
    row_csv2dict [("a", "b", "1"), ("a", "b", "2")] ("a", "b") =
      some "2" ∧
    row_csv2dict [("a", "b", "1"), ("a", "b", "2")] ("a", "b") ≠
      some "1" :=
  ⟨by decide, rfl, by decide⟩

/-- C7 (amended): for every CSV file whose rows each have exactly
three fields, `row_csv2dict` returns a mapping in which, for every key
pair `(a, b)`, the key maps to the third field of the last row of the
file whose first two fields are `(a, b)` (so for files without
repeated key pairs the original claim holds for every row). -/
theorem row_csv2dict_last_row_wins (rows : List (String × String × String))
    (a b c : String)
    (h : (rows.filter (fun r => r.1 == a && r.2.1 == b)).getLast? =
      some (a, b, c)) :
    row_csv2dict rows (a, b) = some c := by
  induction rows using List.reverseRecOn with
  | nil => simp at h
  | append_singleton rows r ih =>
    rw [row_csv2dict_concat]
    rw [List.filter_append] at h
    by_cases hr : (r.1 == a && r.2.1 == b) = true
    · rw [Bool.and_eq_true, beq_iff_eq, beq_iff_eq] at hr
      obtain ⟨hr1, hr2⟩ := hr
      have hfl : List.filter (fun r => r.1 == a && r.2.1 == b) [r] = [r] := by
        simp [List.filter, hr1, hr2]
      rw [hfl, List.getLast?_concat] at h
      have hrc : r = (a, b, c) := Option.some.inj h
      subst hrc
      simp
    · have hfl : List.filter (fun r => r.1 == a && r.2.1 == b) [r] = [] := by
        simp only [List.filter]
        rw [Bool.eq_false_iff.mpr hr]
      rw [hfl, List.append_nil] at h
      have hne : ((a, b) : String × String) ≠ (r.1, r.2.1) := by
        intro he
        apply hr
        have h1 : r.1 = a := (congrArg Prod.fst he).symm
        have h2 : r.2.1 = b := (congrArg (fun p => p.2) he).symm
        simp [h1, h2]
      rw [if_neg hne]
      exact ih h

/-- Witness for the amended C7 at a concrete file. -/
theorem row_csv2dict_last_row_wins_witness :
    (([("x", "y", "1"), ("a", "b", "7")].filter
        (fun r => r.1 == "a" && r.2.1 == "b")).getLast? =
      some ("a", "b", "7")) ∧
    row_csv2dict [("x", "y", "1"), ("a", "b", "7")] ("a", "b") =
      some "7" :=
  ⟨by decide,
   row_csv2dict_last_row_wins [("x", "y", "1"), ("a", "b", "7")]
    "a" "b" "7" (by decide)⟩

/-- C8: starting from the fresh root logger (no handlers), calling
`set_logger` twice with any log paths leaves exactly one file handler
and one console handler attached, and the second call changes nothing
(it adds no handlers), so log lines are not duplicated. -/
theorem set_logger_twice (p1 p2 : String) :
    countFileHandlers
      (set_logger p2 (set_logger p1 initialRootLogger)).handlers = 1 ∧
    countStreamHandlers
      (set_logger p2 (set_logger p1 initialRootLogger)).handlers = 1 ∧
    set_logger p2 (set_logger p1 initialRootLogger) =
      set_logger p1 initialRootLogger := by
  refine ⟨?_, ?_, ?_⟩ <;>
    simp [set_logger, initialRootLogger, countFileHandlers,
      countStreamHandlers, List.countP_cons, List.countP_nil]

/-- A key that appears in no binding of a JSON object is not found. -/
theorem jsonLookup_eq_none_of_not_mem {file : JsonObject} {k : String}
    (h : k ∉ file.map Prod.fst) : jsonLookup file k = none := by
  induction file with
  | nil => rfl
  | cons kv rest ih =>
    rw [List.map_cons, List.mem_cons] at h
    push_neg at h
    simp only [jsonLookup]
    rw [if_neg h.1]
    exact ih h.2

/-- C10: `Params.update` merges rather than replaces: for every
attribute map and every JSON file (with pairwise-distinct keys, as
`json.load` produces), after `update` every attribute whose key is
absent from the file keeps the value it had before the call, while a
key present in the file with value `v` is set to `v`. -/
theorem Params_update_merges (file : JsonObject) (self : Attrs)
    (k : String) (hnd : (file.map Prod.fst).Nodup) :
    (jsonLookup file k = none → Params.update self file k = self k) ∧
    (∀ v, jsonLookup file k = some v → Params.update self file k = some v) := by
  induction file generalizing self with
  | nil =>
    refine ⟨fun _ => rfl, fun v hv => ?_⟩
    simp [jsonLookup] at hv
  | cons kv rest ih =>
    rw [List.map_cons, List.nodup_cons] at hnd
    obtain ⟨hkv, hnd2⟩ := hnd
    have hupd : Params.update self (kv :: rest) =
        Params.update (fun q => if q = kv.1 then some kv.2 else self q)
          rest := rfl
    constructor
    · intro hnone
      by_cases hk : k = kv.1
      · rw [jsonLookup, if_pos hk] at hnone
        exact absurd hnone (by simp)
      · rw [jsonLookup, if_neg hk] at hnone
        rw [hupd, (ih _ hnd2).1 hnone]
        rw [if_neg hk]
    · intro v hv
      by_cases hk : k = kv.1
      · rw [jsonLookup, if_pos hk] at hv
        have hrest : jsonLookup rest k = none := by
          apply jsonLookup_eq_none_of_not_mem
          rw [hk]
          exact hkv
        rw [hupd, (ih _ hnd2).1 hrest, if_pos hk]
        exact hv
      · rw [jsonLookup, if_neg hk] at hv
        rw [hupd]
        exact (ih _ hnd2).2 v hv

/-- Witness for C10 at a concrete attribute map and file: the key
"lr" is overwritten by the file, the key "seed" is absent from the
file and keeps its prior value. -/
theorem Params_update_merges_witness :
    (([("lr", JValue.num 5)] : JsonObject).map Prod.fst).Nodup ∧
    jsonLookup [("lr", JValue.num 5)] "seed" = none ∧
    Params.update
        (fun q => if q = "seed" then some (JValue.num 42)
          else if q = "lr" then some (JValue.num 1) else none)
        [("lr", JValue.num 5)] "seed" = some (JValue.num 42) ∧
    jsonLookup [("lr", JValue.num 5)] "lr" = some (JValue.num 5) ∧
    Params.update
        (fun q => if q = "seed" then some (JValue.num 42)
          else if q = "lr" then some (JValue.num 1) else none)
        [("lr", JValue.num 5)] "lr" = some (JValue.num 5) :=
  ⟨by decide, by decide,
   by
    rw [(Params_update_merges [("lr", JValue.num 5)]
      (fun q => if q = "seed" then some (JValue.num 42)
        else if q = "lr" then some (JValue.num 1) else none)
      "seed" (by decide)).1 (by decide)]
    decide,
   by decide,
   (Params_update_merges [("lr", JValue.num 5)]
      (fun q => if q = "seed" then some (JValue.num 42)
        else if q = "lr" then some (JValue.num 1) else none)
      "lr" (by decide)).2 (JValue.num 5) (by decide)⟩
